import Mathlib

/-!
Verification of the pet lifecycle engine of `core/game_pet.py` (class `GamePet`)
against its natural-language specification.

The engine is embedded shallowly: every definition below is a direct
translation of the corresponding Python method of `GamePet`, with machine
integers modelled as `Int`/`Nat`, external side effects (sprite loading,
sound, console logging, roster/queue mutation, the wall clock) dropped or
passed in as explicit parameters, and the global `FRAME_RATE` constant
(ticks per second, defined outside the embedded sources) threaded through as
an explicit `fr : Nat` argument.
-/

namespace GamePet

/-- Per-module (rule-set) configuration constants consumed by the engine,
mirroring the fields of the module object returned by `get_module`. -/
structure Module where
  use_condition_hearts : Bool
  can_eat_sleeping : Bool
  overfeed_timer : Nat
  meat_weight_gain : Int
  protein_weight_gain : Int
  protein_dp_gain : Int
  training_effort_gain : Nat
  training_strengh_gain : Int
  training_weight_win : Int
  training_weight_lose : Int
  battle_base_sick_chance_win : ℚ
  battle_base_sick_chance_lose : ℚ
  protein_overdose_max : Int
  disturbance_penalty_max : Int
  death_save_by_b_press : Bool
  death_save_by_shake : Bool
  death_max_injuries : Nat
  death_sick_timer : Nat
  death_hunger_timer : Nat
  death_strength_timer : Nat
  death_stage45_mistake : Nat
  death_stage67_mistake : Nat
  death_starvation_count : Nat
  death_care_mistake : Nat
  enable_shaken_egg : Bool
  traited_egg_starting_level : Nat
  deriving Repr, DecidableEq

/-- One entry of a species' ordered evolution-path list (`self.evolve`).
Each `Option` field is an inclusive numeric range predicate that is present
or absent in the JSON dict; `jogress`/`item` record the presence of those
keys.  `target` models the `"to"` key (`to` is reserved in Lean) and
`win_pct` models the `win_ratio` key. -/
structure EvoPath where
  target : String
  jogress : Bool
  item : Bool
  mistakes : Option (Int × Int) := none
  condition_hearts : Option (Int × Int) := none
  training : Option (Int × Int) := none
  overfeed : Option (Int × Int) := none
  level : Option (Int × Int) := none
  stage5 : Option (Int × Int) := none
  stage6 : Option (Int × Int) := none
  stage7 : Option (Int × Int) := none
  stage8 : Option (Int × Int) := none
  stage9 : Option (Int × Int) := none
  sleep_disturbances : Option (Int × Int) := none
  battles : Option (Int × Int) := none
  win_pct : Option (Int × Int) := none
  version : Option Nat := none
  deriving Repr, DecidableEq

/-- The pet entity: the attributes of `GamePet` that the lifecycle engine
reads and writes.  Counters that the code can drive negative or that carry a
`-1` sentinel (`dp`, `death_save_counter`, `shake_counter`, hunger/strength,
weight, overdose/penalty) are `Int`; counters that only count up are `Nat`.
Wall-clock data (`sleep_start_time`, the parsed sleep/wake schedule) and
sprite handles are external and not modelled. -/
structure Pet where
  state : String
  stage : Nat
  version : Nat
  timer : Nat
  age_timer : Nat
  age : Nat
  time : Nat
  evolve : List EvoPath
  hunger : Int
  stomach : Int
  strength : Int
  weight : Int
  min_weight : Int
  power : Int
  atk_main : Int
  hunger_loss : Nat
  strength_loss : Nat
  sick : Nat
  heal_doses : Nat
  injuries : Nat
  dp : Int
  energy : Int
  effort : Nat
  level : Nat
  experience : Nat
  win : Nat
  battles : Nat
  totalWin : Nat
  totalBattles : Nat
  use_condition_hearts : Bool
  condition_hearts : Nat
  condition_hearts_max : Nat
  mistakes : Nat
  starvation_counter : Nat
  overfeed_timer : Nat
  overfeed : Nat
  protein_overdose : Int
  disturbance_penalty : Int
  sleep_disturbances : Nat
  shake_counter : Int
  death_save_counter : Int
  care_food_mistake_timer : Nat
  care_strength_mistake_timer : Nat
  care_sick_mistake_timer : Nat
  care_sleep_mistake_timer : Nat
  enemy_kills : List Nat
  area : Int
  shook : Bool
  traited : Bool
  animation_counter : Nat
  frame_counter : Nat
  frame_index : Nat
  sleep_timer : Nat
  back_to_sleep : Nat
  deriving Repr, DecidableEq

/-- `GamePet.set_state` (lines 150-171).  A no-op once dead; otherwise, when
the state actually changes (or `force` is set), the state tag is replaced and
the animation counters are zeroed.  The guard at line 161 compares
`self.state` (just assigned to `new_state`) with `"nap"` *and* requires
`new_state != "nap"`, so it can never hold and `set_back_to_sleep` is
unreachable from here; it is therefore not modelled.  Entering `nap` or
`idle` zeroes `sleep_timer` (the `sleep_start_time` timestamp is wall-clock
and external). -/
def setState (p : Pet) (new_state : String) (force : Bool) : Pet :=
  if p.state = "dead" then p
  else if p.state = new_state ∧ force = false then p
  else
    { p with
      state := new_state
      animation_counter := 0
      frame_index := 0
      frame_counter := 0
      sleep_timer := if new_state = "nap" ∨ new_state = "idle" then 0 else p.sleep_timer }

/-- `GamePet.add_care_mistake` (lines 599-606).  In condition-hearts mode the
code decrements `condition_hearts_max` (guarded to stay ≥ 0) and leaves
`condition_hearts` untouched; otherwise it increments `mistakes`.  The
`mistake_type` argument is only used for logging. -/
def addCareMistake (p : Pet) (_mistake_type : String) : Pet :=
  if p.use_condition_hearts then
    if p.condition_hearts_max > 0 then
      { p with condition_hearts_max := p.condition_hearts_max - 1 }
    else p
  else { p with mistakes := p.mistakes + 1 }

/-- `GamePet.can_battle` (line 655). -/
def canBattle (p : Pet) : Bool :=
  decide (p.stage > 1) && decide (p.power > 0) && decide (p.state ≠ "dead") && decide (p.atk_main > 0)

/-- `GamePet.need_care` (line 608).  `should_sleep` reads the wall clock, so
its current value is passed in as `sleepNow`. -/
def needCare (sleepNow : Bool) (p : Pet) : Bool :=
  decide (p.stage ≠ 0) && decide (p.state ≠ "dead") && decide (p.state ≠ "nap") &&
    (decide (p.hunger = 0) || decide (p.strength = 0) || decide (p.sick > 0) || sleepNow)

/-- `GamePet.set_sick` (lines 477-481). -/
def setSick (p : Pet) : Pet :=
  setState
    { p with sick := p.heal_doses, injuries := p.injuries + 1, death_save_counter := 0 }
    "sick" false

/-- `GamePet.set_eating` (lines 428-475).  Returns `(accepted, updated pet)`.
The Python truthiness test `or self.overfeed_timer` is `overfeed_timer ≠ 0`. -/
def setEating (m : Module) (p : Pet) (food_type : String) (amount : Int) : Bool × Pet :=
  if m.can_eat_sleeping = false ∧ p.state = "nap" then (false, p)
  else if food_type = "hunger" then
    if p.hunger = p.stomach ∨ p.overfeed_timer ≠ 0 then
      let p :=
        if p.overfeed_timer = 0 then
          { p with overfeed_timer := m.overfeed_timer, overfeed := p.overfeed + 1 }
        else p
      (false, setState p "nope" false)
    else
      let p := setState p "eat" true
      let p := { p with hunger := min p.stomach (p.hunger + amount) }
      let p :=
        if p.stage > 1 ∧ p.weight < 99 then { p with weight := p.weight + m.meat_weight_gain }
        else p
      (true, { p with care_food_mistake_timer := 0 })
  else if food_type = "strength" then
    let p := setState p "eat" false
    let p := { p with strength := min 4 (p.strength + amount),
                      protein_overdose := p.protein_overdose + 1 }
    let p :=
      if p.stage > 1 ∧ p.weight < 99 then { p with weight := p.weight + m.protein_weight_gain }
      else p
    let p :=
      if p.dp < p.energy ∧ p.protein_overdose % 4 = 0 then { p with dp := p.dp + m.protein_dp_gain }
      else p
    (true, { p with care_strength_mistake_timer := 0 })
  else
    if canBattle p then (true, setState p "eat" false)
    else (false, setState p "nope" false)

/-- The hunger block of `GamePet.update_needs` (lines 535-539): on a
hunger-loss interval with no overfeed grace, decrement hunger if positive,
otherwise count a starvation step.  (When `hunger_loss` is 0 Python would
raise `ZeroDivisionError`; `Nat` modulo-by-zero differs there, but module
data always configures positive loss intervals.) -/
def needsHungerStep (fr : Nat) (p : Pet) : Pet :=
  if p.timer % (p.hunger_loss * 60 * fr) = 0 ∧ p.overfeed_timer = 0 then
    if p.hunger > 0 then { p with hunger := p.hunger - 1 }
    else { p with starvation_counter := p.starvation_counter + 1 }
  else p

/-- The strength block of `update_needs` (lines 540-544). -/
def needsStrengthStep (fr : Nat) (p : Pet) : Pet :=
  if p.timer % (p.strength_loss * 60 * fr) = 0 ∧ p.strength > 0 then
    if p.strength > 4 then { p with strength := 4 }
    else { p with strength := p.strength - 1 }
  else p

/-- The overfeed-timer block of `update_needs` (lines 545-546). -/
def needsOverfeedStep (p : Pet) : Pet :=
  if p.overfeed_timer > 0 then { p with overfeed_timer := p.overfeed_timer - 1 } else p

/-- `GamePet.update_needs` (lines 534-546): the three `if` blocks run
sequentially on the mutated pet; `fr` is `FRAME_RATE`. -/
def updateNeeds (fr : Nat) (p : Pet) : Pet :=
  needsOverfeedStep (needsStrengthStep fr (needsHungerStep fr p))

/-- `GamePet.finish_training` (lines 764-776). -/
def finishTraining (m : Module) (p : Pet) (won : Bool) : Pet :=
  let p :=
    if won then
      let p := setState p "happy2" false
      let p := { p with effort := p.effort + m.training_effort_gain }
      if p.disturbance_penalty > 2 then
        { p with disturbance_penalty := p.disturbance_penalty - 2 }
      else p
    else setState p "angry" false
  let p := { p with strength := p.strength + m.training_strengh_gain }
  let weight_loss := if won then m.training_weight_win else m.training_weight_lose
  { p with weight := max p.min_weight (p.weight - weight_loss) }

/-- The state mutations of `GamePet.finish_battle` (lines 786-821).  The
sickness roll `random.random() < sick_chance` is external randomness and its
outcome is passed in as `rollSick`; the rolled-against chance itself is the
pure function `battleSickChance` below.  `area` and `enemy_kills` are
modelled as always-present (the `hasattr` checks install the same defaults). -/
def finishBattle (m : Module) (p : Pet) (won : Bool) (enemyStage : Nat) (area : Int)
    (rollSick : Bool) : Pet :=
  let p := { p with battles := p.battles + 1, dp := p.dp - 1, totalBattles := p.totalBattles + 1 }
  let p :=
    if won then
      let p := setState p "happy3" false
      let p := { p with win := p.win + 1, totalWin := p.totalWin + 1 }
      let p := if p.area < area then { p with area := area } else p
      { p with enemy_kills := p.enemy_kills.set enemyStage (p.enemy_kills.getD enemyStage 0 + 1) }
    else
      let p :=
        if p.protein_overdose > m.protein_overdose_max then
          { p with protein_overdose := m.protein_overdose_max }
        else p
      if p.disturbance_penalty > m.disturbance_penalty_max then
        { p with disturbance_penalty := m.disturbance_penalty_max }
      else p
  if rollSick then setSick p else p

/-- The sickness chance computed and clamped by `finish_battle` (lines
794-818), as an exact rational: on a win the module's base win rate, on a
loss the base lose rate plus `10` per (capped) protein overdose plus the
(capped) disturbance penalty; the result is divided by 100 and clamped by
`max(0.05, min(chance / 100, 0.5))`. -/
def battleSickChance (m : Module) (p : Pet) (won : Bool) : ℚ :=
  let raw : ℚ :=
    if won then m.battle_base_sick_chance_win
    else m.battle_base_sick_chance_lose
      + (min p.protein_overdose m.protein_overdose_max : Int) * 10
      + (min p.disturbance_penalty m.disturbance_penalty_max : Int)
  max (1 / 20 : ℚ) (min (raw / 100) (1 / 2 : ℚ))

/-- The OR-combined raw death conditions of `GamePet.check_death_conditions`
(lines 352-380), before the save mechanics. -/
def deathResult (fr : Nat) (m : Module) (p : Pet) : Bool :=
  decide (p.injuries ≥ m.death_max_injuries) ||
  decide (p.care_sick_mistake_timer > m.death_sick_timer) ||
  decide (p.care_food_mistake_timer > m.death_hunger_timer) ||
  decide (p.care_strength_mistake_timer > m.death_strength_timer) ||
  ((decide (p.stage = 4) || decide (p.stage = 5)) &&
    decide (p.mistakes ≥ m.death_stage45_mistake) && decide (p.timer > p.time * 60 * fr)) ||
  (decide (p.stage ≥ 6) && decide (p.mistakes ≥ m.death_stage67_mistake) &&
    decide (p.age_timer ≥ 48 * 60 * 60 * fr)) ||
  (decide (m.death_starvation_count > 0) &&
    decide (p.starvation_counter > m.death_starvation_count)) ||
  decide (p.mistakes ≥ m.death_care_mistake)

/-- The `death_save_by_shake` block of `check_death_conditions` (lines
391-398) together with the final `return result`; `result` is the raw death
verdict still in force when control reaches the block. -/
def deathShakePhase (m : Module) (p : Pet) (result : Bool) : Bool × Pet :=
  if result && m.death_save_by_shake then
    if p.shake_counter = -1 then (false, { p with shake_counter := 50 })
    else if p.shake_counter > 0 then (true, p)
    else (result, { p with shake_counter := -1 })
  else (result, p)

/-- `GamePet.check_death_conditions` (lines 348-400): returns the verdict and
the pet with any save-counter mutations applied.  In the `death_save_by_b_press`
block (lines 382-389) the code arms `death_save_counter := 100` and returns
`False` only when the counter is exactly `-1`, returns `True` while the
counter is positive, and otherwise (counter `0`, the `reset_variables`
value) sets it to `-1` and falls through to the shake block. -/
def checkDeathConditions (fr : Nat) (m : Module) (p : Pet) : Bool × Pet :=
  if p.state = "nap" ∨ p.state = "dead" then (false, p)
  else
    let result := deathResult fr m p
    if result && m.death_save_by_b_press then
      if p.death_save_counter = -1 then (false, { p with death_save_counter := 100 })
      else if p.death_save_counter > 0 then (true, p)
      else deathShakePhase m { p with death_save_counter := -1 } result
    else deathShakePhase m p result

/-- Membership test `val` ∈ inclusive range `r`, the local `in_range` of
`update_evolution` (line 488). -/
def inRange (val : Int) (r : Int × Int) : Bool :=
  decide (r.1 ≤ val) && decide (val ≤ r.2)

/-- One `("key" in evo and not in_range(...))` disjunct of the skip test:
fails only when the range key is present and the value is outside it. -/
def rangeFails (val : Int) : Option (Int × Int) → Bool
  | none => false
  | some r => !(inRange val r)

/-- The predicate-set skip test of the `update_evolution` loop (lines
489-505): an entry is skipped when it is tagged `jogress` or `item`, or any
present numeric-range predicate fails.  The `win_ratio` disjunct is guarded
by `self.battles` being nonzero, and `training` is `effort // 4`. -/
def evoSkipped (p : Pet) (e : EvoPath) : Bool :=
  e.jogress || e.item ||
  rangeFails p.mistakes e.mistakes ||
  rangeFails p.condition_hearts e.condition_hearts ||
  rangeFails (p.effort / 4) e.training ||
  rangeFails p.overfeed e.overfeed ||
  rangeFails p.level e.level ||
  rangeFails (p.enemy_kills.getD 5 0) e.stage5 ||
  rangeFails (p.enemy_kills.getD 6 0) e.stage6 ||
  rangeFails (p.enemy_kills.getD 7 0) e.stage7 ||
  rangeFails (p.enemy_kills.getD 8 0) e.stage8 ||
  rangeFails (p.enemy_kills.getD 9 0) e.stage9 ||
  rangeFails p.sleep_disturbances e.sleep_disturbances ||
  rangeFails p.battles e.battles ||
  (decide (p.battles ≠ 0) && rangeFails (p.win * 100 / p.battles) e.win_pct)

/-- The path selected by the `update_evolution` loop (lines 487-532):
the first entry that is not skipped by the predicate test and — when
`stage > 0` — whose target form is not a locked special evolution (lines
508-516).  `locked name` stands for "`get_monster(name, version)` is flagged
special with a `special_key` that `is_unlocked` rejects" (the unlock registry
is external state).  The loop's remaining body (module unlock processing,
the shaken-egg flag, `evolve_to`) mutates but does not influence selection. -/
def selectEvolution (locked : String → Bool) (p : Pet) : List EvoPath → Option EvoPath
  | [] => none
  | e :: rest =>
    if evoSkipped p e then selectEvolution locked p rest
    else if p.stage > 0 ∧ locked e.target = true then selectEvolution locked p rest
    else some e

/-- `GamePet.update_evolution`'s overall choice (lines 483-532), including
the entry gate: no evolution when `stage > 5`, when the minimum elapsed time
is not reached (`timer / (FRAME_RATE * 60) < time`, exact on whole-number
boundaries), or when a need is unmet. -/
def updateEvolutionChoice (fr : Nat) (locked : String → Bool) (sleepNow : Bool) (p : Pet) :
    Option EvoPath :=
  if p.stage > 5 ∨ p.timer / (fr * 60) < p.time ∨ needCare sleepNow p = true then none
  else selectEvolution locked p p.evolve

/-- The first entry of the list whose numeric-range predicates are satisfied
and that is not tagged `jogress` or `item` — the selection rule as the
specification words it (no special-lock filtering). -/
def specFirstSatisfying (p : Pet) (evos : List EvoPath) : Option EvoPath :=
  evos.find? (fun e => !(evoSkipped p e))

/-- Whether the loop accepts an entry: its predicates hold, and it is not a
(stage > 0) special target still locked in the unlock registry. -/
def evoSelectable (locked : String → Bool) (p : Pet) (e : EvoPath) : Bool :=
  !(evoSkipped p e) && !(decide (p.stage > 0 ∧ locked e.target = true))

/-- The species-configuration dict returned by `module.get_monster(name,
version)`, restricted to the fields `set_data` (lines 49-80) writes into the
modelled pet attributes.  Presentation-only and externally-consumed fields
(name, sleep/wake schedule strings, attribute, hp, poop_timer, atk_alt, the
special flag and key — the latter consumed through the `locked` oracle) are
dropped. -/
structure SpeciesData where
  stage : Nat
  version : Nat
  evolve : List EvoPath
  time : Nat
  atk_main : Int
  min_weight : Int
  stomach : Int
  hunger_loss : Nat
  strength_loss : Nat
  power : Int
  energy : Int
  heal_doses : Nat
  condition_hearts : Nat
  deriving Repr, DecidableEq

/-- `GamePet.set_data` (lines 49-80): installs the species configuration,
in particular replacing `stomach`, `min_weight`, the loss intervals and the
hearts maximum, while leaving the run-time counters (hunger, strength,
weight, ...) untouched. -/
def setData (d : SpeciesData) (p : Pet) : Pet :=
  { p with
    stage := d.stage
    version := d.version
    evolve := d.evolve
    time := d.time
    atk_main := d.atk_main
    min_weight := d.min_weight
    stomach := d.stomach
    hunger_loss := d.hunger_loss
    strength_loss := d.strength_loss
    power := d.power
    energy := d.energy
    heal_doses := d.heal_doses
    condition_hearts_max := d.condition_hearts }

/-- `GamePet.reset_variables` (lines 82-117): zeroes the run-time counters
and timers, floors weight at the (new) minimum, refills `dp` from `energy`,
sets the level (traited pets start at the module's traited level, line 112
overriding the 1 of line 89), and in hearts mode refills `condition_hearts`
from the maximum.  Hunger and strength are *not* touched. -/
def resetVariables (m : Module) (p : Pet) : Pet :=
  { p with
    timer := 0
    weight := if p.weight < p.min_weight then p.min_weight else p.weight
    dp := p.energy
    effort := 0
    sick := 0
    level := if p.traited then m.traited_egg_starting_level else 1
    experience := 0
    win := 0
    battles := 0
    animation_counter := 0
    frame_counter := 0
    frame_index := 0
    care_food_mistake_timer := 0
    care_strength_mistake_timer := 0
    care_sleep_mistake_timer := 0
    care_sick_mistake_timer := 0
    enemy_kills := [0, 0, 0, 0, 0, 0, 0, 0, 0, 0, 0]
    starvation_counter := 0
    disturbance_penalty := 0
    overfeed_timer := 0
    protein_overdose := 0
    shake_counter := 0
    death_save_counter := 0
    overfeed := 0
    sleep_disturbances := 0
    use_condition_hearts := m.use_condition_hearts
    condition_hearts := if m.use_condition_hearts then p.condition_hearts_max
                        else p.condition_hearts
    mistakes := 0 }

/-- `GamePet.evolve_to` (lines 323-333): install the target species data,
reset the run-time variables, and celebrate (sprite reload, sound and
digidex registration are external). -/
def evolveTo (m : Module) (d : SpeciesData) (p : Pet) : Pet :=
  setState (resetVariables m (setData d p)) "happy1" false

/-- `GamePet.update_evolution` (lines 483-532) as a mutation: when the loop
selects a path (see `updateEvolutionChoice`), optionally set the shaken-egg
flag (line 528-529) and evolve into the target species; otherwise leave the
pet unchanged.  `getMonster` is the module's species lookup
(`get_monster(name, version)`), and the path's own `version` key defaults to
the pet's (line 531). -/
def updateEvolution (fr : Nat) (m : Module) (getMonster : String → Nat → SpeciesData)
    (locked : String → Bool) (sleepNow : Bool) (p : Pet) : Pet :=
  match updateEvolutionChoice fr locked sleepNow p with
  | none => p
  | some e =>
      let p :=
        if p.stage = 0 ∧ p.shake_counter ≥ 99 ∧ m.enable_shaken_egg = true then
          { p with shook := true }
        else p
      evolveTo m (getMonster e.target (e.version.getD p.version)) p

/-- The needs-relevant portion of one `GamePet.update` tick (lines 221-260):
the tick counters advance, and on a whole-minute boundary, while not asleep
or dead, `update_evolution` runs and then `update_needs` (lines 250-251, in
that order — an evolution resets `timer` to 0, so the needs intervals fire
immediately after it).  The same gate also runs `update_pooping`,
`update_care_mistakes` and the death check, which touch sick, injuries,
weight, the mistake/hearts counters, the care timers, the state tag and (on
death) `timer`, but never hunger, strength, stomach, `starvation_counter`
or `overfeed_timer`; the pre-minute animation and movement code writes only
animation, position and state fields. -/
def updateTick (fr : Nat) (m : Module) (getMonster : String → Nat → SpeciesData)
    (locked : String → Bool) (sleepNow : Bool) (p : Pet) : Pet :=
  let p := { p with timer := p.timer + 1, age_timer := p.age_timer + 1 }
  if p.timer % (fr * 60) = 0 ∧ p.state ≠ "nap" ∧ p.state ≠ "dead" then
    updateNeeds fr (updateEvolution fr m getMonster locked sleepNow p)
  else p

/-- The tick modulus of the once-per-day age check, `update` line 243:
`if self.age_timer % (FRAME_RATE * 86.400) == 0`.  The literal `86.400` is
the float `86.4` (the adjacent comment `24 * 60 * 60 = 86.400` shows a day
of seconds was intended, with a locale decimal-point slip).  At the baseline
rate `FRAME_RATE = 30` the float product `30 * 86.4` is exactly the float
`2592.0`, so the check is `age_timer % 2592 == 0`. -/
def ageCheckModulus : Nat := 2592

/-- Ticks in one simulated day (`24 * 60 * 60` seconds) at 30 ticks/second. -/
def dayTickCount : Nat := 30 * 86400

/-- The age mutation of `update` (lines 242-245) at `FRAME_RATE = 30`:
increment `age` when `age_timer` is a multiple of `ageCheckModulus`. -/
def updateAgeStep (age_timer age : Nat) : Nat :=
  if age_timer % ageCheckModulus = 0 then age + 1 else age

/-- The DP restoration of `GamePet.check_wake_up` (line 881): waking after
sleeping at least `SLEEP_RECOVERY_HOURS` sets `dp` to exactly `energy`. -/
def sleepRecoverDp (p : Pet) : Pet :=
  { p with dp := p.energy }

/-- One discrete operation of the needs subsystem: a simulation tick (with
the wall-clock sleep-window flag it observes), or a feed call
`set_eating(food_type, amount)` with a non-negative amount. -/
inductive PetOp where
  | tick : Bool → PetOp
  | feed : String → Nat → PetOp
  deriving Repr, DecidableEq

/-- Apply one operation. -/
def applyOp (fr : Nat) (m : Module) (getMonster : String → Nat → SpeciesData)
    (locked : String → Bool) (p : Pet) : PetOp → Pet
  | PetOp.tick sleepNow => updateTick fr m getMonster locked sleepNow p
  | PetOp.feed food_type amount => (setEating m p food_type (amount : Int)).2

/-- Apply a sequence of operations, oldest first. -/
def applyOps (fr : Nat) (m : Module) (getMonster : String → Nat → SpeciesData)
    (locked : String → Bool) (p : Pet) : List PetOp → Pet
  | [] => p
  | op :: rest => applyOps fr m getMonster locked (applyOp fr m getMonster locked p op) rest

/-- The hunger/strength bounds invariant of the specification:
`hunger ∈ [0, stomach]` and `strength ∈ [0, 4]`. -/
def NeedsInv (p : Pet) : Prop :=
  0 ≤ p.hunger ∧ p.hunger ≤ p.stomach ∧ 0 ≤ p.strength ∧ p.strength ≤ 4

instance (p : Pet) : Decidable (NeedsInv p) := by
  unfold NeedsInv
  infer_instance

/-- The part of the bounds invariant that survives evolution: hunger and
strength are never negative, strength stays ≤ 4, and the stomach capacity is
non-negative.  (The remaining bound `hunger ≤ stomach` can be broken by an
evolution that installs a smaller stomach while hunger persists.) -/
def BoundsInv (p : Pet) : Prop :=
  0 ≤ p.hunger ∧ 0 ≤ p.strength ∧ p.strength ≤ 4 ∧ 0 ≤ p.stomach

instance (p : Pet) : Decidable (BoundsInv p) := by
  unfold BoundsInv
  infer_instance

/-- A sample module configuration (values in the style of the shipped
rule-set data) used to instantiate theorems on concrete inputs. -/
def baseModule : Module :=
  { use_condition_hearts := false
    can_eat_sleeping := false
    overfeed_timer := 60
    meat_weight_gain := 1
    protein_weight_gain := 1
    protein_dp_gain := 1
    training_effort_gain := 1
    training_strengh_gain := 1
    training_weight_win := 2
    training_weight_lose := 1
    battle_base_sick_chance_win := 5
    battle_base_sick_chance_lose := 20
    protein_overdose_max := 4
    disturbance_penalty_max := 10
    death_save_by_b_press := false
    death_save_by_shake := false
    death_max_injuries := 15
    death_sick_timer := 360
    death_hunger_timer := 720
    death_strength_timer := 720
    death_stage45_mistake := 5
    death_stage67_mistake := 5
    death_starvation_count := 0
    death_care_mistake := 20
    enable_shaken_egg := false
    traited_egg_starting_level := 5 }

/-- A sample live pet in a healthy mid-game state. -/
def basePet : Pet :=
  { state := "idle", stage := 3, version := 0, timer := 0, age_timer := 0, age := 0, time := 0,
    evolve := [], hunger := 3, stomach := 5, strength := 3, weight := 20, min_weight := 10,
    power := 10, atk_main := 1, hunger_loss := 5, strength_loss := 5, sick := 0, heal_doses := 1,
    injuries := 0, dp := 5, energy := 10, effort := 0, level := 1, experience := 0,
    win := 0, battles := 0, totalWin := 0, totalBattles := 0,
    use_condition_hearts := false, condition_hearts := 0, condition_hearts_max := 0, mistakes := 0,
    starvation_counter := 0, overfeed_timer := 0, overfeed := 0, protein_overdose := 0,
    disturbance_penalty := 0, sleep_disturbances := 0, shake_counter := 0, death_save_counter := 0,
    care_food_mistake_timer := 0, care_strength_mistake_timer := 0, care_sick_mistake_timer := 0,
    care_sleep_mistake_timer := 0, enemy_kills := [0, 0, 0, 0, 0, 0, 0, 0, 0, 0, 0], area := 0,
    shook := false, traited := false, animation_counter := 0, frame_counter := 0, frame_index := 0,
    sleep_timer := 0, back_to_sleep := 0 }

/-- A pet of a condition-hearts module with 3 of 3 hearts left. -/
def heartsPet : Pet :=
  { basePet with use_condition_hearts := true, condition_hearts := 3, condition_hearts_max := 3 }

/-- A module with the save-by-button mechanic enabled and a care-mistake
death threshold of 1. -/
def bpressModule : Module :=
  { baseModule with death_save_by_b_press := true, death_care_mistake := 1 }

/-- An awake pet satisfying (only) the care-mistake death condition of
`bpressModule`, with `death_save_counter` at its `reset_variables` value 0. -/
def bpressPet : Pet :=
  { basePet with mistakes := 1 }

/-- An evolution path to form `"A"` with no predicates. -/
def pathA : EvoPath :=
  { target := "A", jogress := false, item := false }

/-- An evolution path to form `"B"` with no predicates. -/
def pathB : EvoPath :=
  { target := "B", jogress := false, item := false }

/-- An unlock-registry oracle under which exactly the special form `"A"` is
still locked. -/
def lockOnlyA : String → Bool := fun s => s == "A"

/-- A stage-1 pet with no unmet needs whose species offers the two paths
`pathA` and `pathB` in that order. -/
def evoPet : Pet :=
  { basePet with stage := 1, evolve := [pathA, pathB] }

/-- A species whose stomach capacity (2) is smaller than the sample pets'
(5). -/
def smallSpecies : SpeciesData :=
  { stage := 4, version := 0, evolve := [], time := 0, atk_main := 1, min_weight := 10,
    stomach := 2, hunger_loss := 5, strength_loss := 5, power := 12, energy := 10,
    heal_doses := 1, condition_hearts := 0 }

/-- A species lookup whose every entry is `smallSpecies`. -/
def getSmall : String → Nat → SpeciesData := fun _ _ => smallSpecies

/-- An unlock oracle with nothing locked. -/
def noLock : String → Bool := fun _ => false

/-- A full pet (`hunger = stomach = 5`) one minute tick away from evolving
along `pathB` (its timer reaches the minute boundary on the next tick, its
`time` requirement is 0, and it has no unmet need). -/
def shrinkPet : Pet :=
  { basePet with hunger := 5, evolve := [pathB], timer := 1799 }

/-- A pet one protein feed away from a multiple-of-4 overdose, with
`dp = energy - 1`. -/
def overdosePet : Pet :=
  { basePet with dp := 9, energy := 10, protein_overdose := 3 }

/-- A module whose protein feeding grants 5 DP. -/
def gainModule : Module :=
  { baseModule with protein_dp_gain := 5 }

/-- A pet that has spent all its DP. -/
def zeroDpPet : Pet :=
  { basePet with dp := 0 }

/-- A pet with a full stomach (`hunger = stomach = 5`). -/
def fullPet : Pet :=
  { basePet with hunger := 5 }

/-- A pet at the strength cap 4. -/
def strongPet : Pet :=
  { basePet with strength := 4 }

/-- A dead pet. -/
def deadPet : Pet :=
  { basePet with state := "dead" }

/-! ## Helper lemmas: `set_state` leaves every non-animation field alone -/

@[simp] theorem setState_stage (p : Pet) (s : String) (f : Bool) :
    (setState p s f).stage = p.stage := by
  unfold setState
  split
  · rfl
  · split <;> rfl

@[simp] theorem setState_hunger (p : Pet) (s : String) (f : Bool) :
    (setState p s f).hunger = p.hunger := by
  unfold setState
  split
  · rfl
  · split <;> rfl

@[simp] theorem setState_stomach (p : Pet) (s : String) (f : Bool) :
    (setState p s f).stomach = p.stomach := by
  unfold setState
  split
  · rfl
  · split <;> rfl

@[simp] theorem setState_strength (p : Pet) (s : String) (f : Bool) :
    (setState p s f).strength = p.strength := by
  unfold setState
  split
  · rfl
  · split <;> rfl

@[simp] theorem setState_weight (p : Pet) (s : String) (f : Bool) :
    (setState p s f).weight = p.weight := by
  unfold setState
  split
  · rfl
  · split <;> rfl

@[simp] theorem setState_min_weight (p : Pet) (s : String) (f : Bool) :
    (setState p s f).min_weight = p.min_weight := by
  unfold setState
  split
  · rfl
  · split <;> rfl

@[simp] theorem setState_dp (p : Pet) (s : String) (f : Bool) :
    (setState p s f).dp = p.dp := by
  unfold setState
  split
  · rfl
  · split <;> rfl

@[simp] theorem setState_energy (p : Pet) (s : String) (f : Bool) :
    (setState p s f).energy = p.energy := by
  unfold setState
  split
  · rfl
  · split <;> rfl

@[simp] theorem setState_effort (p : Pet) (s : String) (f : Bool) :
    (setState p s f).effort = p.effort := by
  unfold setState
  split
  · rfl
  · split <;> rfl

@[simp] theorem setState_protein_overdose (p : Pet) (s : String) (f : Bool) :
    (setState p s f).protein_overdose = p.protein_overdose := by
  unfold setState
  split
  · rfl
  · split <;> rfl

@[simp] theorem setState_disturbance_penalty (p : Pet) (s : String) (f : Bool) :
    (setState p s f).disturbance_penalty = p.disturbance_penalty := by
  unfold setState
  split
  · rfl
  · split <;> rfl

@[simp] theorem setState_overfeed_timer (p : Pet) (s : String) (f : Bool) :
    (setState p s f).overfeed_timer = p.overfeed_timer := by
  unfold setState
  split
  · rfl
  · split <;> rfl

@[simp] theorem setState_overfeed (p : Pet) (s : String) (f : Bool) :
    (setState p s f).overfeed = p.overfeed := by
  unfold setState
  split
  · rfl
  · split <;> rfl

@[simp] theorem setState_starvation_counter (p : Pet) (s : String) (f : Bool) :
    (setState p s f).starvation_counter = p.starvation_counter := by
  unfold setState
  split
  · rfl
  · split <;> rfl

@[simp] theorem setState_timer (p : Pet) (s : String) (f : Bool) :
    (setState p s f).timer = p.timer := by
  unfold setState
  split
  · rfl
  · split <;> rfl

@[simp] theorem setState_win (p : Pet) (s : String) (f : Bool) :
    (setState p s f).win = p.win := by
  unfold setState
  split
  · rfl
  · split <;> rfl

@[simp] theorem setState_totalWin (p : Pet) (s : String) (f : Bool) :
    (setState p s f).totalWin = p.totalWin := by
  unfold setState
  split
  · rfl
  · split <;> rfl

@[simp] theorem setState_battles (p : Pet) (s : String) (f : Bool) :
    (setState p s f).battles = p.battles := by
  unfold setState
  split
  · rfl
  · split <;> rfl

@[simp] theorem setState_totalBattles (p : Pet) (s : String) (f : Bool) :
    (setState p s f).totalBattles = p.totalBattles := by
  unfold setState
  split
  · rfl
  · split <;> rfl

@[simp] theorem setState_area (p : Pet) (s : String) (f : Bool) :
    (setState p s f).area = p.area := by
  unfold setState
  split
  · rfl
  · split <;> rfl

@[simp] theorem setState_enemy_kills (p : Pet) (s : String) (f : Bool) :
    (setState p s f).enemy_kills = p.enemy_kills := by
  unfold setState
  split
  · rfl
  · split <;> rfl

@[simp] theorem setState_sick (p : Pet) (s : String) (f : Bool) :
    (setState p s f).sick = p.sick := by
  unfold setState
  split
  · rfl
  · split <;> rfl

@[simp] theorem setState_injuries (p : Pet) (s : String) (f : Bool) :
    (setState p s f).injuries = p.injuries := by
  unfold setState
  split
  · rfl
  · split <;> rfl

@[simp] theorem setState_death_save_counter (p : Pet) (s : String) (f : Bool) :
    (setState p s f).death_save_counter = p.death_save_counter := by
  unfold setState
  split
  · rfl
  · split <;> rfl

@[simp] theorem setState_care_food_mistake_timer (p : Pet) (s : String) (f : Bool) :
    (setState p s f).care_food_mistake_timer = p.care_food_mistake_timer := by
  unfold setState
  split
  · rfl
  · split <;> rfl

@[simp] theorem setState_care_strength_mistake_timer (p : Pet) (s : String) (f : Bool) :
    (setState p s f).care_strength_mistake_timer = p.care_strength_mistake_timer := by
  unfold setState
  split
  · rfl
  · split <;> rfl

/-- `set_state` is a complete no-op on a dead pet (line 151 returns
immediately). -/
theorem setState_of_dead (p : Pet) (s : String) (f : Bool) (h : p.state = "dead") :
    setState p s f = p := by
  unfold setState
  rw [if_pos h]

/-- The state after `set_state` is dead iff the pet was already dead or the
requested state is `"dead"`. -/
theorem setState_state_dead (p : Pet) (s : String) (f : Bool) (h : p.state = "dead") :
    (setState p s f).state = "dead" := by
  rw [setState_of_dead p s f h, h]

/-! ## Helper lemmas: the needs invariant is preserved -/

theorem needsHungerStep_inv (fr : Nat) (p : Pet) (h : NeedsInv p) :
    NeedsInv (needsHungerStep fr p) := by
  obtain ⟨h1, h2, h3, h4⟩ := h
  unfold needsHungerStep NeedsInv
  split
  · split <;> refine ⟨?_, ?_, ?_, ?_⟩ <;> (try simp) <;> omega
  · exact ⟨h1, h2, h3, h4⟩

theorem needsStrengthStep_inv (fr : Nat) (p : Pet) (h : NeedsInv p) :
    NeedsInv (needsStrengthStep fr p) := by
  obtain ⟨h1, h2, h3, h4⟩ := h
  unfold needsStrengthStep NeedsInv
  split
  · split <;> refine ⟨?_, ?_, ?_, ?_⟩ <;> (try simp) <;> omega
  · exact ⟨h1, h2, h3, h4⟩

theorem needsOverfeedStep_inv (p : Pet) (h : NeedsInv p) : NeedsInv (needsOverfeedStep p) := by
  obtain ⟨h1, h2, h3, h4⟩ := h
  unfold needsOverfeedStep NeedsInv
  split <;> exact ⟨h1, h2, h3, h4⟩

theorem updateNeeds_inv (fr : Nat) (p : Pet) (h : NeedsInv p) : NeedsInv (updateNeeds fr p) :=
  needsOverfeedStep_inv _ (needsStrengthStep_inv fr _ (needsHungerStep_inv fr p h))

theorem setEating_inv (m : Module) (p : Pet) (food_type : String) (a : Int) (ha : 0 ≤ a)
    (h : NeedsInv p) : NeedsInv (setEating m p food_type a).2 := by
  obtain ⟨h1, h2, h3, h4⟩ := h
  unfold NeedsInv
  simp only [setEating]
  split_ifs <;> refine ⟨?_, ?_, ?_, ?_⟩ <;> (try simp) <;> omega

theorem needsInv_boundsInv (p : Pet) (h : NeedsInv p) : BoundsInv p :=
  ⟨h.1, h.2.2.1, h.2.2.2, le_trans h.1 h.2.1⟩

theorem needsHungerStep_bounds (fr : Nat) (p : Pet) (h : BoundsInv p) :
    BoundsInv (needsHungerStep fr p) := by
  obtain ⟨h1, h2, h3, h4⟩ := h
  unfold needsHungerStep BoundsInv
  split
  · split <;> refine ⟨?_, ?_, ?_, ?_⟩ <;> (try simp) <;> omega
  · exact ⟨h1, h2, h3, h4⟩

theorem needsStrengthStep_bounds (fr : Nat) (p : Pet) (h : BoundsInv p) :
    BoundsInv (needsStrengthStep fr p) := by
  obtain ⟨h1, h2, h3, h4⟩ := h
  unfold needsStrengthStep BoundsInv
  split
  · split <;> refine ⟨?_, ?_, ?_, ?_⟩ <;> (try simp) <;> omega
  · exact ⟨h1, h2, h3, h4⟩

theorem needsOverfeedStep_bounds (p : Pet) (h : BoundsInv p) :
    BoundsInv (needsOverfeedStep p) := by
  obtain ⟨h1, h2, h3, h4⟩ := h
  unfold needsOverfeedStep BoundsInv
  split <;> exact ⟨h1, h2, h3, h4⟩

theorem updateNeeds_bounds (fr : Nat) (p : Pet) (h : BoundsInv p) :
    BoundsInv (updateNeeds fr p) :=
  needsOverfeedStep_bounds _ (needsStrengthStep_bounds fr _ (needsHungerStep_bounds fr p h))

theorem setEating_bounds (m : Module) (p : Pet) (food_type : String) (a : Int) (ha : 0 ≤ a)
    (h : BoundsInv p) : BoundsInv (setEating m p food_type a).2 := by
  obtain ⟨h1, h2, h3, h4⟩ := h
  unfold BoundsInv
  simp only [setEating]
  split_ifs <;> refine ⟨?_, ?_, ?_, ?_⟩ <;> (try simp) <;> omega

/-- `evolve_to` carries hunger through unchanged: neither `set_data` nor
`reset_variables` writes it. -/
theorem evolveTo_hunger (m : Module) (d : SpeciesData) (p : Pet) :
    (evolveTo m d p).hunger = p.hunger := by
  unfold evolveTo resetVariables setData
  simp

/-- `evolve_to` carries strength through unchanged. -/
theorem evolveTo_strength (m : Module) (d : SpeciesData) (p : Pet) :
    (evolveTo m d p).strength = p.strength := by
  unfold evolveTo resetVariables setData
  simp

/-- `evolve_to` replaces the stomach capacity by the target species'. -/
theorem evolveTo_stomach (m : Module) (d : SpeciesData) (p : Pet) :
    (evolveTo m d p).stomach = d.stomach := by
  unfold evolveTo resetVariables setData
  simp

theorem evolveTo_bounds (m : Module) (d : SpeciesData) (p : Pet) (hd : 0 ≤ d.stomach)
    (h : BoundsInv p) : BoundsInv (evolveTo m d p) := by
  obtain ⟨h1, h2, h3, _⟩ := h
  refine ⟨?_, ?_, ?_, ?_⟩
  · rwa [evolveTo_hunger]
  · rwa [evolveTo_strength]
  · rwa [evolveTo_strength]
  · rwa [evolveTo_stomach]

theorem updateEvolution_bounds (fr : Nat) (m : Module)
    (getMonster : String → Nat → SpeciesData) (locked : String → Bool) (sleepNow : Bool)
    (p : Pet) (hM : ∀ (s : String) (v : Nat), 0 ≤ (getMonster s v).stomach)
    (h : BoundsInv p) : BoundsInv (updateEvolution fr m getMonster locked sleepNow p) := by
  obtain ⟨h1, h2, h3, h4⟩ := h
  unfold updateEvolution
  cases hc : updateEvolutionChoice fr locked sleepNow p with
  | none => exact ⟨h1, h2, h3, h4⟩
  | some e =>
      dsimp only
      split
      · exact evolveTo_bounds _ _ _ (hM _ _) ⟨h1, h2, h3, h4⟩
      · exact evolveTo_bounds _ _ _ (hM _ _) ⟨h1, h2, h3, h4⟩

/-- When the resolver selects no path, `update_evolution` leaves the pet
unchanged. -/
theorem updateEvolution_none (fr : Nat) (m : Module)
    (getMonster : String → Nat → SpeciesData) (locked : String → Bool) (sleepNow : Bool)
    (p : Pet) (h : updateEvolutionChoice fr locked sleepNow p = none) :
    updateEvolution fr m getMonster locked sleepNow p = p := by
  unfold updateEvolution
  rw [h]

theorem updateTick_bounds (fr : Nat) (m : Module) (getMonster : String → Nat → SpeciesData)
    (locked : String → Bool) (sleepNow : Bool) (p : Pet)
    (hM : ∀ (s : String) (v : Nat), 0 ≤ (getMonster s v).stomach) (h : BoundsInv p) :
    BoundsInv (updateTick fr m getMonster locked sleepNow p) := by
  simp only [updateTick]
  split
  · exact updateNeeds_bounds fr _ (updateEvolution_bounds fr m getMonster locked sleepNow _ hM h)
  · exact h

theorem applyOp_bounds (fr : Nat) (m : Module) (getMonster : String → Nat → SpeciesData)
    (locked : String → Bool) (p : Pet) (op : PetOp)
    (hM : ∀ (s : String) (v : Nat), 0 ≤ (getMonster s v).stomach) (h : BoundsInv p) :
    BoundsInv (applyOp fr m getMonster locked p op) := by
  cases op with
  | tick sleepNow => exact updateTick_bounds fr m getMonster locked sleepNow p hM h
  | feed food_type amount =>
      exact setEating_bounds m p food_type amount (Int.natCast_nonneg amount) h

theorem applyOps_bounds (fr : Nat) (m : Module) (getMonster : String → Nat → SpeciesData)
    (locked : String → Bool) (ops : List PetOp)
    (hM : ∀ (s : String) (v : Nat), 0 ≤ (getMonster s v).stomach) :
    ∀ p : Pet, BoundsInv p → BoundsInv (applyOps fr m getMonster locked p ops) := by
  induction ops with
  | nil => intro p h; exact h
  | cons op rest ih =>
      intro p h
      exact ih (applyOp fr m getMonster locked p op) (applyOp_bounds fr m getMonster locked p op hM h)

/-- Neither a tick nor a feed changes the stomach capacity. -/
theorem setEating_stomach (m : Module) (p : Pet) (food_type : String) (a : Int) :
    ((setEating m p food_type a).2).stomach = p.stomach := by
  simp only [setEating]
  split_ifs <;> simp

/-- The state after `set_state`: unchanged when dead, otherwise the
requested tag (when `p.state = new_state` and `force` is unset the branch
returns `p`, whose state is that same tag). -/
theorem setState_state (p : Pet) (s : String) (f : Bool) :
    (setState p s f).state = if p.state = "dead" then p.state else s := by
  unfold setState
  split_ifs with hdead heq hsleep
  any_goals rfl
  exact heq.1

@[simp] theorem setSick_dp (p : Pet) : (setSick p).dp = p.dp := by
  unfold setSick
  simp

theorem setSick_state_dead (p : Pet) (h : p.state = "dead") : (setSick p).state = "dead" := by
  unfold setSick
  rw [setState_state]
  simp [h]

theorem needsHungerStep_state (fr : Nat) (p : Pet) : (needsHungerStep fr p).state = p.state := by
  unfold needsHungerStep
  split
  · split <;> rfl
  · rfl

theorem needsStrengthStep_state (fr : Nat) (p : Pet) :
    (needsStrengthStep fr p).state = p.state := by
  unfold needsStrengthStep
  split
  · split <;> rfl
  · rfl

theorem needsOverfeedStep_state (p : Pet) : (needsOverfeedStep p).state = p.state := by
  unfold needsOverfeedStep
  split <;> rfl

theorem updateNeeds_state (fr : Nat) (p : Pet) : (updateNeeds fr p).state = p.state := by
  unfold updateNeeds
  rw [needsOverfeedStep_state, needsStrengthStep_state, needsHungerStep_state]

/-! ## Claim theorems -/

/-- C1: the claim states that on a condition-hearts pet every firing of
`add_care_mistake` decrements the pet's `condition_hearts` counter by 1
(floored at 0) and never increments `mistakes`.  On the code, the hearts
branch leaves `condition_hearts` unchanged (it stays 3 here) and instead
decrements `condition_hearts_max` — the per-species maximum that the status
display and the evolution predicates do not read; the non-hearts branch does
increment `mistakes` by exactly 1.  This evaluates `add_care_mistake` at the
failing input. -/
theorem C1_care_mistake_hits_max_not_hearts :
    heartsPet.use_condition_hearts = true ∧
    heartsPet.condition_hearts = 3 ∧
    (addCareMistake heartsPet "hunger").condition_hearts = 3 ∧
    (addCareMistake heartsPet "hunger").condition_hearts_max = 2 ∧
    (addCareMistake heartsPet "hunger").mistakes = heartsPet.mistakes ∧
    (addCareMistake basePet "hunger").mistakes = basePet.mistakes + 1 := by
  decide

/-- C2: the claim states that with `death_save_by_b_press` enabled the first
qualifying evaluation of `check_death_conditions` arms the countdown to 100
and returns `false`, counting-down evaluations return `false`, and the `-1`
sentinel means a later qualifying evaluation returns `true` without delay.
The code is inverted: from the `reset_variables` value 0 the first
qualifying evaluation returns `true` (death) and writes the sentinel `-1`;
at `-1` it arms 100 and returns `false`; and while the counter is positive
it returns `true`.  This evaluates the code at all three counter values. -/
theorem C2_death_save_logic_inverted :
    checkDeathConditions 30 bpressModule bpressPet
      = (true, { bpressPet with death_save_counter := -1 }) ∧
    checkDeathConditions 30 bpressModule { bpressPet with death_save_counter := -1 }
      = (false, { bpressPet with death_save_counter := 100 }) ∧
    checkDeathConditions 30 bpressModule { bpressPet with death_save_counter := 50 }
      = (true, { bpressPet with death_save_counter := 50 }) := by
  decide

/-- C3: the claim states `age` increments exactly when `age_timer` crosses a
whole-day tick boundary (`24*60*60 = 86400` seconds).  The code's modulus is
`FRAME_RATE * 86.400`, i.e. 86.4 seconds (2592 ticks at 30 ticks/second, with
the float product exactly representable), so `age` increments at tick 2592 —
far before the first day boundary `dayTickCount = 2592000` — and 1000 times
per simulated day. -/
theorem C3_age_boundary_slip :
    updateAgeStep 2592 0 = 1 ∧
    2592 < dayTickCount ∧
    dayTickCount = 1000 * ageCheckModulus := by
  decide

/-- C7: for every module configuration, pet state (any protein overdose and
disturbance penalty values) and battle outcome, the sickness chance computed
and clamped by `finish_battle` lies in the closed interval `[0.05, 0.5]`. -/
theorem C7_sick_chance_clamped (m : Module) (p : Pet) (won : Bool) :
    1 / 20 ≤ battleSickChance m p won ∧ battleSickChance m p won ≤ 1 / 2 := by
  unfold battleSickChance
  constructor
  · exact le_max_left _ _
  · exact max_le (by norm_num) (min_le_right _ _)

/-- C8: for an awake pet with `hunger = stomach` and no overfeed grace
running, on a module with a positive `overfeed_timer`, `set_eating("hunger", 1)`
rejects the food, starts the overfeed grace timer (to a positive value),
increments the `overfeed` counter by exactly 1, and leaves hunger unchanged. -/
theorem C8_overfeed_rejection (m : Module) (p : Pet)
    (h1 : p.hunger = p.stomach) (h2 : p.overfeed_timer = 0)
    (h3 : 0 < m.overfeed_timer) (h4 : p.state ≠ "nap") :
    (setEating m p "hunger" 1).1 = false ∧
    ((setEating m p "hunger" 1).2).overfeed_timer = m.overfeed_timer ∧
    0 < ((setEating m p "hunger" 1).2).overfeed_timer ∧
    ((setEating m p "hunger" 1).2).overfeed = p.overfeed + 1 ∧
    ((setEating m p "hunger" 1).2).hunger = p.hunger := by
  simp only [setEating]
  split_ifs <;> simp_all

/-- C8 witness: the concrete scenario of the specification, `stomach = 5`,
`hunger = 5`. -/
theorem C8_overfeed_rejection_witness :
    (setEating baseModule fullPet "hunger" 1).1 = false ∧
    ((setEating baseModule fullPet "hunger" 1).2).overfeed_timer = baseModule.overfeed_timer ∧
    0 < ((setEating baseModule fullPet "hunger" 1).2).overfeed_timer ∧
    ((setEating baseModule fullPet "hunger" 1).2).overfeed = fullPet.overfeed + 1 ∧
    ((setEating baseModule fullPet "hunger" 1).2).hunger = fullPet.hunger :=
  C8_overfeed_rejection baseModule fullPet (by decide) (by decide) (by decide) (by decide)

/-- C10: `finish_training` adds the module's training strength gain with no
upper clamp (a pet at strength 4 with gain 1 ends above 4), decrements
weight by the win- or lose-specific amount floored at `min_weight`, and on a
win with `disturbance_penalty ≤ 2` leaves the penalty unchanged (the
reduction only applies when the penalty exceeds 2). -/
theorem C10_training_outcome (m : Module) (p : Pet) (won : Bool) :
    (finishTraining m p won).strength = p.strength + m.training_strengh_gain ∧
    (finishTraining m p won).weight
      = max p.min_weight
          (p.weight - (if won = true then m.training_weight_win else m.training_weight_lose)) ∧
    (finishTraining m p won).disturbance_penalty
      = (if won = true ∧ p.disturbance_penalty > 2 then p.disturbance_penalty - 2
         else p.disturbance_penalty) ∧
    (finishTraining baseModule strongPet true).strength > 4 := by
  refine ⟨?_, ?_, ?_, by decide⟩ <;>
    cases won <;> simp only [finishTraining] <;> split_ifs <;> simp_all

/-- C4 counterexample: the claim says every sequence of `update()` ticks and
feeds keeps `hunger ∈ [0, stomach]`.  A tick whose minute gate fires the
evolution resolver replaces the species: `set_data` installs the new
(smaller) stomach while neither it nor `reset_variables` touches hunger, so
`shrinkPet` (hunger = stomach = 5, satisfying the invariant) exits a single
real tick with hunger 4 > stomach 2 — the invariant as claimed fails. -/
theorem C4_evolution_breaks_stomach_bound :
    NeedsInv shrinkPet ∧
    (updateTick 30 baseModule getSmall noLock false shrinkPet).stomach = 2 ∧
    (updateTick 30 baseModule getSmall noLock false shrinkPet).hunger = 4 ∧
    ¬ NeedsInv (updateTick 30 baseModule getSmall noLock false shrinkPet) := by
  decide

/-- C4 amended: starting from any pet with `hunger ∈ [0, stomach]` and
`strength ∈ [0, 4]`, over every sequence of `update()` ticks (including ones
that evolve the pet) and `set_eating` calls, hunger and strength never
become negative and strength stays ≤ 4, provided every species in the
module data has a non-negative stomach; the full bound `hunger ≤ stomach`
is additionally preserved by every tick in which the evolution resolver
selects no path and by every feed; a hunger-loss interval reached at
`hunger = 0` increments `starvation_counter` instead of decrementing
hunger; and feeding clamps hunger at `stomach` and strength at 4. -/
theorem C4_needs_invariant (fr : Nat) (m : Module) (getMonster : String → Nat → SpeciesData)
    (locked : String → Bool) (p : Pet) (ops : List PetOp)
    (hM : ∀ (s : String) (v : Nat), 0 ≤ (getMonster s v).stomach)
    (h : NeedsInv p) :
    BoundsInv (applyOps fr m getMonster locked p ops) ∧
    (∀ (q : Pet) (sleepNow : Bool), NeedsInv q →
      updateEvolutionChoice fr locked sleepNow
        { q with timer := q.timer + 1, age_timer := q.age_timer + 1 } = none →
      NeedsInv (updateTick fr m getMonster locked sleepNow q)) ∧
    (∀ (q : Pet) (food_type : String) (a : Int), NeedsInv q → 0 ≤ a →
      NeedsInv (setEating m q food_type a).2) ∧
    (p.hunger = 0 → p.overfeed_timer = 0 → p.timer % (p.hunger_loss * 60 * fr) = 0 →
      (needsHungerStep fr p).starvation_counter = p.starvation_counter + 1 ∧
      (needsHungerStep fr p).hunger = 0) ∧
    (∀ amount : Nat,
      ((setEating m p "hunger" (amount : Int)).2).hunger ≤ p.stomach ∧
      ((setEating m p "strength" (amount : Int)).2).strength ≤ 4) := by
  refine ⟨applyOps_bounds fr m getMonster locked ops hM p (needsInv_boundsInv p h),
    ?_, fun q food_type a hq ha => setEating_inv m q food_type a ha hq, ?_, ?_⟩
  · intro q sleepNow hq hnone
    simp only [updateTick]
    split
    · rw [updateEvolution_none fr m getMonster locked sleepNow _ hnone]
      exact updateNeeds_inv fr _ hq
    · exact hq
  · intro hh ho ht
    unfold needsHungerStep
    rw [if_pos ⟨ht, ho⟩, if_neg (by omega)]
    exact ⟨rfl, hh⟩
  · intro amount
    constructor
    · have hs := (setEating_inv m p "hunger" (amount : Int) (Int.natCast_nonneg _) h).2.1
      rwa [setEating_stomach] at hs
    · exact (setEating_inv m p "strength" (amount : Int) (Int.natCast_nonneg _) h).2.2.2

/-- C4 witness: a concrete pet and a concrete tick/feed sequence, with a
concrete species lookup whose every entry has a non-negative stomach. -/
theorem C4_needs_invariant_witness :
    BoundsInv (applyOps 30 baseModule getSmall noLock basePet
      [PetOp.feed "hunger" 1, PetOp.tick false, PetOp.feed "strength" 2, PetOp.tick false]) :=
  (C4_needs_invariant 30 baseModule getSmall noLock basePet
    [PetOp.feed "hunger" 1, PetOp.tick false, PetOp.feed "strength" 2, PetOp.tick false]
    (fun _ _ => by show (0 : Int) ≤ 2; decide) (by decide)).1

/-- C5 counterexample: the claim says `update_evolution` selects the first
entry whose numeric-range predicates are all satisfied (skipping only
`jogress`/`item` entries).  With `pathA` satisfying every predicate but
leading to a special form still locked in the unlock registry, the code
skips it and selects `pathB` instead. -/
theorem C5_locked_special_breaks_first_match :
    evoSkipped evoPet pathA = false ∧
    pathA.jogress = false ∧
    pathA.item = false ∧
    specFirstSatisfying evoPet evoPet.evolve = some pathA ∧
    updateEvolutionChoice 30 lockOnlyA false evoPet = some pathB ∧
    pathA ≠ pathB := by
  decide

/-- C5 amended: the loop selects the first entry of the ordered list whose
numeric-range predicates are all satisfied, skipping entries tagged
`jogress` or `item` and, when `stage > 0`, entries whose target form is a
special evolution not yet unlocked; the choice is a pure function of the pet
state, the path list and the unlock registry (first-match policy). -/
theorem C5_first_match_policy (locked : String → Bool) (p : Pet) (evos : List EvoPath) :
    selectEvolution locked p evos = evos.find? (evoSelectable locked p) := by
  induction evos with
  | nil => rfl
  | cons e rest ih =>
      rw [List.find?_cons]
      cases hs : evoSkipped p e with
      | true =>
          have hsel : evoSelectable locked p e = false := by
            unfold evoSelectable
            rw [hs]
            rfl
          rw [selectEvolution, if_pos hs, ih, hsel]
      | false =>
          by_cases hl : p.stage > 0 ∧ locked e.target = true
          · have hsel : evoSelectable locked p e = false := by
              unfold evoSelectable
              rw [decide_eq_true hl]
              simp
            rw [selectEvolution, if_neg (by rw [hs]; simp), if_pos hl, ih, hsel]
          · have hsel : evoSelectable locked p e = true := by
              unfold evoSelectable
              rw [hs, decide_eq_false hl]
              rfl
            rw [selectEvolution, if_neg (by rw [hs]; simp), if_neg hl, hsel]

/-- C6 counterexample: the claim says `dp` stays within `[0, energy]`, with
`finish_battle` never driving it below 0 and protein feeding never above
`energy`.  From `dp = 0` a battle leaves `dp = -1`, and from
`dp = 9, energy = 10` a protein feed on a module with `protein_dp_gain = 5`
leaves `dp = 14`. -/
theorem C6_dp_leaves_bounds :
    zeroDpPet.dp = 0 ∧
    (finishBattle baseModule zeroDpPet false 0 0 false).dp = -1 ∧
    overdosePet.dp = 9 ∧
    overdosePet.energy = 10 ∧
    ((setEating gainModule overdosePet "strength" 1).2).dp = 14 := by
  decide

/-- C6 amended: `finish_battle` always decrements `dp` by exactly 1 with no
floor (so `dp` can go below 0); strength-feeding adds `protein_dp_gain`
only when `dp < energy` (and the incremented overdose is a multiple of 4),
bounding the result by `energy - 1 + protein_dp_gain` — above `energy` only
when the gain exceeds 1 — and sleep recovery sets `dp` to exactly `energy`. -/
theorem C6_dp_behavior (m : Module) (p : Pet) (h : p.dp ≤ p.energy) :
    (∀ (won : Bool) (enemyStage : Nat) (area : Int) (rollSick : Bool),
      (finishBattle m p won enemyStage area rollSick).dp = p.dp - 1) ∧
    (∀ a : Int,
      ((setEating m p "strength" a).2).dp ≤ p.energy - 1 + max 1 m.protein_dp_gain) ∧
    (m.protein_dp_gain ≤ 1 →
      ∀ a : Int, ((setEating m p "strength" a).2).dp ≤ p.energy) ∧
    (sleepRecoverDp p).dp = p.energy := by
  refine ⟨?_, ?_, ?_, rfl⟩
  · intro won enemyStage area rollSick
    simp only [finishBattle]
    split_ifs <;> simp
  · intro a
    simp only [setEating]
    split_ifs <;> (try simp_all) <;> omega
  · intro hg a
    simp only [setEating]
    split_ifs <;> (try simp_all) <;> omega

/-- C6 amended witness: after one battle the sample pet's `dp` is one less. -/
theorem C6_dp_behavior_witness :
    (finishBattle baseModule basePet true 3 1 false).dp = basePet.dp - 1 :=
  (C6_dp_behavior baseModule basePet (by decide)).1 true 3 1 false

/-- C9: once `state = "dead"`, `set_state` is a complete no-op for every
argument, and feeding, battle, training, sickness and update ticks all leave
the state `"dead"`. -/
theorem C9_dead_state_absorbing (fr : Nat) (m : Module) (p : Pet) (h : p.state = "dead") :
    (∀ (s : String) (f : Bool), setState p s f = p) ∧
    (∀ (food_type : String) (a : Int), ((setEating m p food_type a).2).state = "dead") ∧
    (∀ (won : Bool) (enemyStage : Nat) (area : Int) (rollSick : Bool),
      (finishBattle m p won enemyStage area rollSick).state = "dead") ∧
    (∀ won : Bool, (finishTraining m p won).state = "dead") ∧
    ((setSick p).state = "dead") ∧
    (∀ (getMonster : String → Nat → SpeciesData) (locked : String → Bool) (sleepNow : Bool),
      (updateTick fr m getMonster locked sleepNow p).state = "dead") := by
  refine ⟨?_, ?_, ?_, ?_, ?_, ?_⟩
  · intro s f
    exact setState_of_dead p s f h
  · intro food_type a
    simp only [setEating]
    split_ifs <;> simp [setState_state, h]
  · intro won enemyStage area rollSick
    simp only [finishBattle, setSick]
    split_ifs <;> simp [setState_state, h]
  · intro won
    simp only [finishTraining]
    split_ifs <;> simp [setState_state, h]
  · exact setSick_state_dead p h
  · intro getMonster locked sleepNow
    simp only [updateTick]
    split
    next hcond => exact absurd h hcond.2.2
    next => exact h

/-- C9 witness: a concrete dead pet is untouched by `set_state` and stays
dead through training. -/
theorem C9_dead_state_absorbing_witness :
    setState deadPet "idle" true = deadPet ∧
    (finishTraining baseModule deadPet true).state = "dead" :=
  ⟨(C9_dead_state_absorbing 30 baseModule deadPet rfl).1 "idle" true,
   (C9_dead_state_absorbing 30 baseModule deadPet rfl).2.2.2.1 true⟩

end GamePet
